import Mathlib

/-!
Shallow embedding of the tw-angpao voucher-redemption core.

The program of record is the final modular revision of the repository:
`src/utils.ts` (validators, request encoder, response classifier),
`src/error.class.ts` (typed errors), `src/type.d.ts` (response shapes) and
`src/index.ts` (cache and the `redeemVoucher` orchestrator).  The older
monolithic draft of `src/index.ts` that also appears in the repository is
superseded by those files and is not the authority here.

Strings are Lean `String`/`List Char`; JSON values are a standard inductive
(numbers as `Int`: float/NaN subtleties never matter to the claims under
study); the cache is an association list mirroring a JS `Map`; the single
outbound `fetch` of a call is an explicit `FetchResult` parameter; raised
JS exceptions are explicit constructors.
-/

/-- JSON values.  Numbers are modelled as `Int`; the program only ever
inspects string fields, truthiness and field presence. -/
inductive Json where
  | null : Json
  | bool : Bool → Json
  | num : Int → Json
  | str : String → Json
  | arr : List Json → Json
  | obj : List (String × Json) → Json

/-- JS truthiness of a parsed JSON value (`if (errorData)` in
`parseApiResponse`): `null`, `false`, `0` and `""` are falsy, objects and
arrays are always truthy.  (Float `NaN` is not representable here and is
never produced by the program's JSON bodies.) -/
def Json.truthy : Json → Bool
  | .null => false
  | .bool b => b
  | .num n => n != 0
  | .str s => s != ""
  | .arr _ => true
  | .obj _ => true

/-- Object field lookup: `fields[k]`, `none` when the key is absent. -/
def jsonLookup (fields : List (String × Json)) (k : String) : Option Json :=
  (fields.find? (fun kv => kv.1 == k)).map (fun kv => kv.2)

/-- JS property access `j[k]` on a non-null receiver: `undefined` (here
`none`) on primitives and arrays and on objects lacking the key. -/
def Json.getProp : Json → String → Option Json
  | .obj fs, k => jsonLookup fs k
  | _, _ => none

/-- Models the expression `apiResponse.status.code` from `redeemVoucher`
(src/index.ts), written without optional chaining in the source: it raises
a `TypeError` (`.error ()`) when `apiResponse` is `null` or when
`apiResponse.status` is `undefined` or `null`; otherwise it yields the
`code` property (`none` when absent). -/
def statusCodeOf (j : Json) : Except Unit (Option Json) :=
  match j with
  | .null => .error ()
  | j =>
    match j.getProp "status" with
    | none => .error ()
    | some .null => .error ()
    | some v => .ok (v.getProp "code")

/-- `x === 'SUCCESS'` applied to the (possibly absent) `status.code`
value. -/
def isSuccessCode : Option Json → Bool
  | some (.str s) => s == "SUCCESS"
  | _ => false

/-! ### Validators (src/utils.ts) -/

/-- `[0-9A-Za-z]` (the regex character class is ASCII-only, as are Lean's
`Char.isDigit`/`Char.isAlpha`). -/
def isAlnum (c : Char) : Bool := c.isDigit || c.isAlpha

/-- First maximal run matched by `/[0-9A-Za-z]+/`, or `[]` when the regex
does not match. -/
def firstAlnumRun : List Char → List Char
  | [] => []
  | c :: cs => if isAlnum c then c :: cs.takeWhile isAlnum else firstAlnumRun cs

/-- JS `String.prototype.split("?v=")` on the character list: splits at each
left-to-right non-overlapping occurrence of the three-character marker. -/
def jsSplitQ : List Char → List (List Char)
  | [] => [[]]
  | '?' :: 'v' :: '=' :: rest => [] :: jsSplitQ rest
  | c :: cs =>
    match jsSplitQ cs with
    | [] => [[c]]
    | p :: ps => (c :: p) :: ps

/-- `getValidVoucherCode` from src/utils.ts:
`parts = voucherCode.split("?v=")`, `codeToTest = parts[1] || parts[0]`,
then the first `[0-9A-Za-z]+` match, else `""`. -/
def getValidVoucherCode (voucherCode : String) : String :=
  let parts := jsSplitQ voucherCode.toList
  let p1 := parts.getD 1 []
  let codeToTest := if p1.isEmpty then parts.getD 0 [] else p1
  String.mk (firstAlnumRun codeToTest)

/-- The digit-stripping `phoneNumber.replace(/[^\d]/g, "")` (JS `\d` is
ASCII `[0-9]`, as is `Char.isDigit`). -/
def digitsOnlyL (s : List Char) : List Char := s.filter Char.isDigit

/-- The regex test `/^0[689]\d{8}$/.test s`. -/
def matchesLocalPatternL : List Char → Bool
  | '0' :: d :: rest =>
    (d == '6' || d == '8' || d == '9') && rest.length == 8 && rest.all Char.isDigit
  | _ => false

/-- `isValidThaiPhoneNumber` from src/utils.ts: strip non-digits; when the
cleaned number starts with `"66"` and has 11 digits, test `"0"` plus the
digits after the country code against the local regex, else test the
cleaned number directly.  Pure function (no side effects). -/
def isValidThaiPhoneNumber (phoneNumber : String) : Bool :=
  let cleanedNumber := digitsOnlyL phoneNumber.toList
  if (cleanedNumber.take 2 == ['6', '6']) && cleanedNumber.length == 11 then
    matchesLocalPatternL ('0' :: cleanedNumber.drop 2)
  else
    matchesLocalPatternL cleanedNumber

/-! ### Response classifier (src/utils.ts `parseApiResponse`) -/

/-- An HTTP `Response` as far as the classifier observes it.  `jsonBody` is
`none` when `response.json()` rejects (the body is not valid JSON). -/
structure HttpResponse where
  ok : Bool
  status : Nat
  statusText : String
  jsonBody : Option Json

/-- The typed failures `parseApiResponse` can raise (src/error.class.ts):
`ApiError` carries a code and message; `JsonParseError` has fixed code
`INVALID_JSON_RESPONSE` and carries the original parse error as `cause`
(an opaque runtime value, not modelled beyond its existence). -/
inductive ApiFailure where
  | apiError (code message : String)
  | jsonParseError (message : String)
deriving DecidableEq

/-- The `ApiError` synthesized in the `!ok` branch: code
`` `HTTP_ERROR_${response?.ok ? "OK" : "UNKNOWN"}` `` and message
`` `API request failed: ${response?.statusText || "Unknown"}` ``.
(Within the `!ok` branch `response?.ok` is false, so the code is always
`HTTP_ERROR_UNKNOWN`; the numeric HTTP status is never used.) -/
def httpApiError (r : HttpResponse) : ApiFailure :=
  .apiError ("HTTP_ERROR_" ++ (if r.ok then "OK" else "UNKNOWN"))
    ("API request failed: " ++ (if r.statusText == "" then "Unknown" else r.statusText))

/-- `parseApiResponse` from src/utils.ts.  On `!ok`: a body that parses to a
truthy JSON value is returned verbatim (`if (errorData) return errorData`),
otherwise the synthesized `ApiError` is raised.  On `ok`: a parsed body is
returned as-is (the source's `SUCCESS` check there only selects a TypeScript
cast, not a different value), and an unparseable body raises
`JsonParseError`. -/
def parseApiResponse (response : HttpResponse) : Except ApiFailure Json :=
  if !response.ok then
    match response.jsonBody with
    | some errorData =>
      if errorData.truthy then .ok errorData else .error (httpApiError response)
    | none => .error (httpApiError response)
  else
    match response.jsonBody with
    | some data => .ok data
    | none => .error (.jsonParseError "API returned invalid JSON")

/-! ### Request encoder (src/utils.ts `makeApiRequest`)

`makeApiRequest` serializes `{mobile, voucher_hash}` with
`guard.Check(body) ? encode(body) : JSON.stringify(body)`.  Both
serializers live in third-party libraries (`json-accelerator`,
`JSON.stringify`), so they are modelled here from their documented
behaviour; the repository's own contribution is only the gating line. -/

/-- One hexadecimal digit (lowercase, as emitted by `JSON.stringify`). -/
def hexDigit (n : Nat) : Char :=
  if n < 10 then Char.ofNat ('0'.toNat + n) else Char.ofNat ('a'.toNat + (n - 10))

/-- JSON string-character escaping as performed by `JSON.stringify`:
quote and backslash get a backslash, the named control escapes are used for
`\b \t \n \f \r`, all other control characters become `\u00XX`. -/
def escapeJsonChar (c : Char) : List Char :=
  if c = '"' then ['\\', '"']
  else if c = '\\' then ['\\', '\\']
  else if c = '\x08' then ['\\', 'b']
  else if c = '\x09' then ['\\', 't']
  else if c = '\x0a' then ['\\', 'n']
  else if c = '\x0c' then ['\\', 'f']
  else if c = '\x0d' then ['\\', 'r']
  else if c.toNat < 0x20 then ['\\', 'u', '0', '0', hexDigit (c.toNat / 16), hexDigit (c.toNat % 16)]
  else [c]

/-- A JSON string literal: quotes around the escaped characters. -/
def encodeJsonChars (s : String) : List Char :=
  '"' :: s.toList.flatMap escapeJsonChar ++ ['"']

/-- Modelled from the spec: the generic fallback path
`JSON.stringify(body)` (library code, not in src/) applied to a flat object
whose fields are strings, keys in insertion order. -/
def jsonStringifyFlat (fields : List (String × String)) : List Char :=
  let encoded := fields.map fun kv => encodeJsonChars kv.1 ++ ':' :: encodeJsonChars kv.2
  '{' :: joinComma encoded ++ ['}']
where
  /-- comma-join of already-encoded members -/
  joinComma : List (List Char) → List Char
    | [] => []
    | [x] => x
    | x :: xs => x ++ ',' :: joinComma xs

/-- Modelled from the spec: the schema-compiled fast path
`createAccelerator(shape)` (library code, not in src/), which for the fixed
schema `{mobile: string, voucher_hash: string}` emits the two fields by
template in schema order with standard JSON string escaping. -/
def fastEncodeBody (mobile voucherHash : String) : List Char :=
  '{' :: ('"' :: "mobile".toList ++ '"' :: ':' :: encodeJsonChars mobile)
    ++ ',' :: ('"' :: "voucher_hash".toList ++ '"' :: ':' :: encodeJsonChars voucherHash)
    ++ ['}']

/-- The body-selection line of `makeApiRequest`:
`guard.Check(body) ? encode(body) : JSON.stringify(body)`.  In the embedding
the body fields are strings by type, so the compiled schema check passes and
the fast path is chosen. -/
def makeApiRequestBody (mobile voucherHash : String) : List Char :=
  let guardCheck := true
  if guardCheck then fastEncodeBody mobile voucherHash
  else jsonStringifyFlat [("mobile", mobile), ("voucher_hash", voucherHash)]

/-! ### Cache and orchestrator (src/index.ts) -/

/-- A cache slot: `{ data: ApiResponse, expiry: number }`. -/
structure CacheEntry where
  data : Json
  expiry : Int

/-- The `Map<string, CacheEntry>`, as an association list in insertion
order. -/
abbrev Cache := List (String × CacheEntry)

/-- `cache.get(key)`. -/
def cacheGet (c : Cache) (k : String) : Option CacheEntry :=
  (c.find? (fun kv => kv.1 == k)).map (fun kv => kv.2)

/-- `cache.set(key, entry)`: overwrite in place when the key exists, append
otherwise (JS `Map.set` keeps first-insertion order). -/
def cacheSet (c : Cache) (k : String) (e : CacheEntry) : Cache :=
  if c.any (fun kv => kv.1 == k) then
    c.map (fun kv => if kv.1 == k then (k, e) else kv)
  else c ++ [(k, e)]

def SUCCESS_CACHE_TTL : Int := 1000 * 60 * 60 * 24
def ERROR_CACHE_TTL : Int := 1000 * 60 * 5

/-- JS whitespace as stripped by `String.prototype.trim` (ASCII whitespace
plus NBSP and BOM; other exotic Unicode space separators never occur in the
inputs this development reasons about). -/
def jsWhitespace (c : Char) : Bool :=
  c == ' ' || c == '\t' || c == '\n' || c == '\r' || c == '\x0b' || c == '\x0c'
    || c.toNat == 0xa0 || c.toNat == 0xfeff

/-- `phoneNumber.trim()`: strip leading and trailing whitespace. -/
def jsTrim (s : String) : String :=
  String.mk (((s.toList.dropWhile jsWhitespace).reverse.dropWhile jsWhitespace).reverse)

/-- The outcome of one `fetch` (`makeApiRequest`): the promise resolves
with a `Response`, or rejects with a runtime `Error` carrying a message. -/
inductive FetchResult where
  | success (response : HttpResponse)
  | failure (message : String)

/-- What the single outbound call of `redeemVoucher` looked like: the URL
and the `{mobile, voucher_hash}` body handed to `makeApiRequest`. -/
structure RequestRecord where
  url : String
  mobile : String
  voucherHash : String
deriving DecidableEq

/-- How a `redeemVoucher` promise ends: it resolves with an `ApiResponse`,
or it rejects with the re-thrown `NetworkError(code, message)` of the
unexpected-error escape hatch. -/
inductive RedeemOutcome where
  | returned (r : Json)
  | raised (code message : String)

/-- Result of one `redeemVoucher` call: its outcome, the cache afterwards,
and the outbound requests it issued (`[]` or one element). -/
structure RedeemResult where
  outcome : RedeemOutcome
  cache : Cache
  requests : List RequestRecord

/-- The `{status: {code, message}, data: null}` envelopes built inline in
`redeemVoucher`. -/
def errorEnvelope (code message : String) : Json :=
  .obj [("status", .obj [("code", .str code), ("message", .str message)]), ("data", .null)]

/-- The envelope variant with the `error: cause` diagnostic field (used for
`NetworkError`/`JsonParseError`); the cause is an opaque runtime error
value, modelled by `Json.null`. -/
def errorEnvelopeWithCause (code message : String) : Json :=
  .obj [("status",
      .obj [("code", .str code), ("message", .str message), ("error", .null)]),
    ("data", .null)]

def redeemUrl (code : String) : String :=
  "https://gift.truemoney.com/campaign/vouchers/" ++ code ++ "/redeem"

/-- The message text of a runtime `TypeError` is engine-specific; claims
never inspect it. -/
def typeErrorMessage : String := "TypeError"

/-- The post-cache-miss part of `redeemVoucher` (the `try`/`catch` around
`makeApiRequest`/`parseApiResponse`, the TTL selection, `cache.set` and the
typed-error conversion).  A fetch rejection is a plain runtime `Error`
(not one of the repo's typed classes), so it falls through the
`instanceof` chain to `throw new NetworkError('NETWORK_ERROR',
error.message)`; likewise the `TypeError` raised by
`apiResponse.status.code` when the classified response has no usable
`status` object. -/
def redeemNetwork (fetchResult : FetchResult) (now : Int) (cache : Cache)
    (cacheKey : String) (req : RequestRecord) : RedeemResult :=
  match fetchResult with
  | .failure msg => ⟨.raised "NETWORK_ERROR" msg, cache, [req]⟩
  | .success resp =>
    match parseApiResponse resp with
    | .error (.apiError code message) =>
      ⟨.returned (errorEnvelope code message), cache, [req]⟩
    | .error (.jsonParseError message) =>
      ⟨.returned (errorEnvelopeWithCause "INVALID_JSON_RESPONSE" message), cache, [req]⟩
    | .ok apiResponse =>
      match statusCodeOf apiResponse with
      | .error _ => ⟨.raised "NETWORK_ERROR" typeErrorMessage, cache, [req]⟩
      | .ok sc =>
        let ttl := if isSuccessCode sc then SUCCESS_CACHE_TTL else ERROR_CACHE_TTL
        ⟨.returned apiResponse, cacheSet cache cacheKey ⟨apiResponse, now + ttl⟩, [req]⟩

/-- `redeemVoucher` from src/index.ts.  `now` is `Date.now()` during the
call; `fetchResult` is the behaviour of the one possible outbound
`fetch`. -/
def redeemVoucher (fetchResult : FetchResult) (now : Int) (cache : Cache)
    (phoneNumber voucherCode : String) : RedeemResult :=
  let cleanedPhoneNumber := jsTrim phoneNumber
  let validVoucherCode := if voucherCode == "" then "" else getValidVoucherCode voucherCode
  if !isValidThaiPhoneNumber cleanedPhoneNumber then
    ⟨.returned (errorEnvelope "INVALID_PHONE_NUMBER" "Invalid Thai Phone Number."), cache, []⟩
  else if validVoucherCode == "" then
    ⟨.returned (errorEnvelope "INVALID_VOUCHER_CODE" "Invalid Voucher Code."), cache, []⟩
  else
    let cacheKey := cleanedPhoneNumber ++ ":" ++ validVoucherCode
    let req : RequestRecord :=
      ⟨redeemUrl validVoucherCode, cleanedPhoneNumber, validVoucherCode⟩
    match cacheGet cache cacheKey with
    | some entry =>
      if entry.expiry > now then ⟨.returned entry.data, cache, []⟩
      else redeemNetwork fetchResult now cache cacheKey req
    | none => redeemNetwork fetchResult now cache cacheKey req

/-! ### Claim-side reference definitions

These follow the wording of the specification sentences under test, to be
compared with the definitions above that embed the source. -/

/-- JS `split("v=")` — the marker as the spec's sentence states it, without
the question mark. -/
def jsSplitV : List Char → List (List Char)
  | [] => [[]]
  | 'v' :: '=' :: rest => [] :: jsSplitV rest
  | c :: cs =>
    match jsSplitV cs with
    | [] => [[c]]
    | p :: ps => (c :: p) :: ps

/-- The voucher-code extraction exactly as claim C4 words it: split on the
literal marker `"v="`, take the segment after the marker if the marker is
present and that segment is non-empty, else the whole input, then the first
maximal alphanumeric run. -/
def claimVoucherCode (s : String) : String :=
  let parts := jsSplitV s.toList
  let segmentAfter := parts.getD 1 []
  let chosen :=
    if 2 ≤ parts.length && !segmentAfter.isEmpty then segmentAfter else s.toList
  String.mk (firstAlnumRun chosen)

/-- Everything after the first occurrence of `"?v="`, `none` when the
marker is absent.  (Reference definition for the amended claim C4, written
positionally rather than via the splitter.) -/
def restAfterMarker : List Char → Option (List Char)
  | [] => none
  | '?' :: 'v' :: '=' :: rest => some rest
  | _ :: cs => restAfterMarker cs

/-- The prefix up to the first occurrence of `"?v="` (the whole list when
the marker is absent). -/
def segmentBeforeMarker : List Char → List Char
  | [] => []
  | '?' :: 'v' :: '=' :: _ => []
  | c :: cs => c :: segmentBeforeMarker cs

/-- The amended claim C4, as a reference function: split on the literal
marker `"?v="` (question mark required); the tested segment is the text
strictly between the first marker and the next one (or the end) when that
is non-empty, else the text before the first marker (the whole input when
the marker is absent); the result is its first maximal alphanumeric run. -/
def amendedVoucherCode (s : String) : String :=
  match restAfterMarker s.toList with
  | none => String.mk (firstAlnumRun s.toList)
  | some rest =>
    let seg := segmentBeforeMarker rest
    String.mk (firstAlnumRun (if seg.isEmpty then segmentBeforeMarker s.toList else seg))

/-- The local phone format as claim C5 words it: leading `0`, then one of
`6`, `8`, `9`, then 8 more digits — 10 digits total. -/
def claimLocalFormat (d : List Char) : Bool :=
  d.length == 10 && d.headD ' ' == '0'
    && (d.getD 1 ' ' == '6' || d.getD 1 ' ' == '8' || d.getD 1 ' ' == '9')
    && (d.drop 2).all Char.isDigit

/-- The country-code form as claim C5 words it: `66` followed by 9 digits,
where those 9 digits with a leading `0` prepended match the local
pattern. -/
def claimCountryCodeFormat (d : List Char) : Bool :=
  d.length == 11 && d.take 2 == ['6', '6'] && claimLocalFormat ('0' :: d.drop 2)

/-! ## Helper lemmas -/

theorem jsSplitQ_structure (s : List Char) :
    jsSplitQ s =
      match restAfterMarker s with
      | none => [s]
      | some rest => segmentBeforeMarker s :: jsSplitQ rest := by
  induction s using jsSplitQ.induct with
  | case1 => rfl
  | case2 rest ih => rfl
  | case3 c cs h ih ih1 =>
    exfalso
    rw [ih] at ih1
    cases hr : restAfterMarker cs <;> rw [hr] at ih1 <;> exact List.cons_ne_nil _ _ ih1.symm
  | case4 c cs h p ps hsplit ih1 =>
    rw [jsSplitQ.eq_3 c cs h, restAfterMarker.eq_3 c cs h, segmentBeforeMarker.eq_3 c cs h,
      hsplit]
    rw [hsplit] at ih1
    cases hr : restAfterMarker cs <;> rw [hr] at ih1 <;>
      injection ih1 with h1 h2 <;> subst h1 <;> subst h2 <;> rfl

theorem segmentBeforeMarker_of_none (s : List Char) (h : restAfterMarker s = none) :
    segmentBeforeMarker s = s := by
  induction s using restAfterMarker.induct with
  | case1 => rfl
  | case2 rest => rw [restAfterMarker.eq_2] at h; exact absurd h (by simp)
  | case3 c cs hne ih =>
    rw [restAfterMarker.eq_3 c cs hne] at h
    rw [segmentBeforeMarker.eq_3 c cs hne, ih h]

theorem jsSplitQ_headD (s : List Char) : (jsSplitQ s).getD 0 [] = segmentBeforeMarker s := by
  rw [jsSplitQ_structure s]
  cases hr : restAfterMarker s
  · simp [segmentBeforeMarker_of_none s hr]
  · simp

theorem matchesLocalPatternL_eq_claim (d : List Char) :
    matchesLocalPatternL d = claimLocalFormat d := by
  match d with
  | [] => rfl
  | [c] =>
    have h1 : matchesLocalPatternL [c] = false := by
      rw [matchesLocalPatternL.eq_2]
      simp
    have h2 : claimLocalFormat [c] = false := by simp [claimLocalFormat]
    rw [h1, h2]
  | c :: c2 :: rest =>
    by_cases hc : c = '0'
    · subst hc
      have hlen : ((rest.length + 1 + 1 : Nat) == 10) = (rest.length == 8) := by
        rw [Bool.eq_iff_iff]; simp only [beq_iff_eq]; omega
      rw [matchesLocalPatternL.eq_1]
      simp only [claimLocalFormat, List.length_cons, List.headD_cons, List.getD_cons_succ,
        List.getD_cons_zero, List.drop_succ_cons, List.drop_zero, hlen]
      cases c2 == '6' || c2 == '8' || c2 == '9' <;>
        cases rest.length == 8 <;>
          cases rest.all Char.isDigit <;> simp
    · have h1 : matchesLocalPatternL (c :: c2 :: rest) = false := by
        rw [matchesLocalPatternL.eq_2]
        intro d r hx
        exact hc (by injection hx)
      have h2 : claimLocalFormat (c :: c2 :: rest) = false := by
        simp only [claimLocalFormat, List.headD_cons]
        have : (c == '0') = false := by simp [hc]
        simp [this]
      rw [h1, h2]

theorem getValidVoucherCode_eq_amended (s : String) :
    getValidVoucherCode s = amendedVoucherCode s := by
  simp only [getValidVoucherCode, amendedVoucherCode, jsSplitQ_structure s.toList]
  cases hr : restAfterMarker s.toList
  · simp [List.getD]
  · simp only [List.getD_cons_succ, List.getD_cons_zero, jsSplitQ_headD]

theorem validCore_eq_claim (d : List Char) :
    (if (d.take 2 == ['6', '6']) && d.length == 11 then
        matchesLocalPatternL ('0' :: d.drop 2)
      else matchesLocalPatternL d) =
      (claimLocalFormat d || claimCountryCodeFormat d) := by
  by_cases h66 : ((d.take 2 == ['6', '6']) && d.length == 11) = true
  · rw [if_pos h66]
    rw [Bool.and_eq_true] at h66
    obtain ⟨htake, hlen⟩ := h66
    rw [beq_iff_eq] at htake hlen
    obtain ⟨t, rfl⟩ : ∃ t, d = '6' :: '6' :: t := by
      rcases d with _ | ⟨a, _ | ⟨b, t⟩⟩ <;> simp_all [List.take]
    have h9 : t.length = 9 := by simpa using hlen
    simp only [List.drop_succ_cons, List.drop_zero]
    rw [matchesLocalPatternL_eq_claim ('0' :: t)]
    have hcl : claimLocalFormat ('6' :: '6' :: t) = false := by
      simp [claimLocalFormat]
    have hcc : claimCountryCodeFormat ('6' :: '6' :: t) = claimLocalFormat ('0' :: t) := by
      simp [claimCountryCodeFormat, h9, List.take]
    rw [hcl, hcc, Bool.false_or]
  · rw [if_neg h66]
    rw [matchesLocalPatternL_eq_claim d]
    have hcc : claimCountryCodeFormat d = false := by
      cases ha : (d.take 2 == ['6', '6']) <;> cases hb : (d.length == 11)
      · simp [claimCountryCodeFormat, ha, hb]
      · simp [claimCountryCodeFormat, ha, hb]
      · simp [claimCountryCodeFormat, ha, hb]
      · exact absurd (by rw [ha, hb]; rfl) h66
    rw [hcc, Bool.or_false]

theorem isValidThaiPhoneNumber_eq_claim (s : String) :
    isValidThaiPhoneNumber s =
      (claimLocalFormat (digitsOnlyL s.toList) || claimCountryCodeFormat (digitsOnlyL s.toList)) := by
  simpa only [isValidThaiPhoneNumber] using validCore_eq_claim (digitsOnlyL s.toList)

/-! ## Claim theorems -/

/-- Claim C4, counterexample.  The claim says the extractor splits on the
literal marker `"v="` (with the leading `"?"` merely tolerated); on
`"v=abc123"` that reading (`claimVoucherCode`) yields `"abc123"`, but the
source splits on `"?v="`, finds no marker, and returns the first
alphanumeric run `"v"` of the whole input. -/
theorem c4_counterexample :
    claimVoucherCode "v=abc123" = "abc123"
      ∧ getValidVoucherCode "v=abc123" = "v"
      ∧ ("v" : String) ≠ "abc123" :=
  ⟨rfl, rfl, by decide⟩

/-- Claim C4 (amended): `getValidVoucherCode` splits on the literal marker
`"?v="` — the question mark is part of the marker, not merely tolerated —
takes the segment between the first marker and the next (or the end) when
it is non-empty, else the segment before the first marker (the whole input
when no marker occurs), and returns that segment's first maximal run of
ASCII alphanumeric characters, or `""` when no such run exists; in
particular `getValidVoucherCode "abc123" = "abc123"`,
`getValidVoucherCode "https://x?v=abc123" = "abc123"` and
`getValidVoucherCode "!!!" = ""`. -/
theorem c4_voucher_extraction :
    (∀ s, getValidVoucherCode s = amendedVoucherCode s)
      ∧ getValidVoucherCode "abc123" = "abc123"
      ∧ getValidVoucherCode "https://x?v=abc123" = "abc123"
      ∧ getValidVoucherCode "!!!" = "" :=
  ⟨getValidVoucherCode_eq_amended, rfl, rfl, rfl⟩

/-- Claim C5: `isValidThaiPhoneNumber` strips all non-digit characters and
accepts exactly the inputs whose digit sequence is either the local format
(leading `0`, then one of `6`/`8`/`9`, then 8 more digits) or the
country-code form (`66` plus 9 digits whose `0`-prefixed reinterpretation
matches the local format); it accepts `"0812345678"`, `"0912345678"`,
`"0612345678"` and `"66812345678"` and rejects `"1234567890"` and
`"08123456"`.  The function is pure, so it has no side effects. -/
theorem c5_phone_validation :
    (∀ s, isValidThaiPhoneNumber s =
        (claimLocalFormat (digitsOnlyL s.toList) || claimCountryCodeFormat (digitsOnlyL s.toList)))
      ∧ isValidThaiPhoneNumber "0812345678" = true
      ∧ isValidThaiPhoneNumber "0912345678" = true
      ∧ isValidThaiPhoneNumber "0612345678" = true
      ∧ isValidThaiPhoneNumber "66812345678" = true
      ∧ isValidThaiPhoneNumber "1234567890" = false
      ∧ isValidThaiPhoneNumber "08123456" = false :=
  ⟨isValidThaiPhoneNumber_eq_claim, rfl, rfl, rfl, rfl, rfl, rfl⟩

/-- Claim C2, counterexample.  The claim says a `!ok` response whose body
does not identify an upstream error is converted to an `ApiError` with code
`HTTP_ERROR_<numeric status>`, `HTTP_ERROR_UNKNOWN` only when the status is
unavailable.  The final src/utils.ts instead computes
`` `HTTP_ERROR_${response?.ok ? "OK" : "UNKNOWN"}` ``, which inside the
`!ok` branch is always `HTTP_ERROR_UNKNOWN`: here the status 400 is
available, yet the raised code is not `HTTP_ERROR_400`. -/
theorem c2_counterexample :
    parseApiResponse ⟨false, 400, "Bad Request", none⟩
        = .error (.apiError "HTTP_ERROR_UNKNOWN" "API request failed: Bad Request")
      ∧ ("HTTP_ERROR_UNKNOWN" : String) ≠ "HTTP_ERROR_400" :=
  ⟨rfl, by decide⟩

/-- Claim C2 (amended): for every `!ok` response whose body fails to parse
as JSON or parses to a JS-falsy value, `parseApiResponse` raises an
`ApiError` whose code is the fixed string `HTTP_ERROR_UNKNOWN` (the numeric
HTTP status is never interpolated) and whose message is
`API request failed: ` followed by the response's status text, or
`Unknown` when the status text is empty. -/
theorem c2_http_error (r : HttpResponse) (hok : r.ok = false)
    (hbody : r.jsonBody = none ∨ ∃ b, r.jsonBody = some b ∧ b.truthy = false) :
    parseApiResponse r =
      .error (.apiError "HTTP_ERROR_UNKNOWN"
        ("API request failed: " ++ (if r.statusText == "" then "Unknown" else r.statusText))) := by
  have henv : httpApiError r =
      .apiError "HTTP_ERROR_UNKNOWN"
        ("API request failed: " ++ (if r.statusText == "" then "Unknown" else r.statusText)) := by
    rw [httpApiError, hok]
    rfl
  rcases hbody with hb | ⟨b, hb, htr⟩
  · simp [parseApiResponse, hok, hb, henv]
  · simp [parseApiResponse, hok, hb, htr, henv]

/-- Witness for `c2_http_error` at the concrete response
`⟨false, 400, "Bad Request", none⟩`. -/
theorem c2_http_error_witness :
    parseApiResponse ⟨false, 400, "Bad Request", none⟩
      = .error (.apiError "HTTP_ERROR_UNKNOWN" "API request failed: Bad Request") :=
  c2_http_error ⟨false, 400, "Bad Request", none⟩ rfl (Or.inl rfl)

/-- Claim C3, counterexample.  The claim says a parseable `!ok` body is
passed through verbatim only when it has a recognizable `status.code`
field, and that a JSON body lacking it yields the synthesized API-error.
The final src/utils.ts checks only `if (errorData)` — truthiness — so the
body `{"foo": 1}`, which has no `status` field at all, is returned
verbatim. -/
theorem c3_counterexample :
    parseApiResponse ⟨false, 400, "Bad Request", some (.obj [("foo", .num 1)])⟩
        = .ok (.obj [("foo", .num 1)])
      ∧ (Json.obj [("foo", .num 1)]).getProp "status" = none :=
  ⟨rfl, rfl⟩

/-- Claim C3 (amended): for every `!ok` response, `parseApiResponse`
returns a body verbatim as an outcome if and only if the body parses as
JSON to a JS-truthy value; no `status.code` field is required. -/
theorem c3_passthrough (r : HttpResponse) (b : Json) (hok : r.ok = false) :
    parseApiResponse r = .ok b ↔ r.jsonBody = some b ∧ b.truthy = true := by
  simp only [parseApiResponse, hok, Bool.not_false, if_true]
  cases hb : r.jsonBody with
  | none =>
    constructor
    · intro h; exact absurd h (by simp)
    · rintro ⟨h, -⟩; exact absurd h (by simp)
  | some d =>
    show (if d.truthy = true then Except.ok d else Except.error (httpApiError r)) = Except.ok b
        ↔ some d = some b ∧ b.truthy = true
    by_cases ht : d.truthy = true
    · simp only [if_pos ht, Except.ok.injEq, Option.some.injEq]
      constructor
      · rintro rfl; exact ⟨rfl, ht⟩
      · rintro ⟨rfl, -⟩; rfl
    · rw [if_neg ht]
      constructor
      · intro h; exact absurd h (by simp)
      · rintro ⟨hd, hb2⟩
        injection hd with hd
        exact absurd (hd ▸ hb2) ht

/-- Witness for `c3_passthrough`: the pass-through at a concrete truthy
error body. -/
theorem c3_passthrough_witness :
    parseApiResponse
        ⟨false, 400, "Bad Request",
          some (.obj [("status", .obj [("code", .str "VOUCHER_EXPIRED")])])⟩
      = .ok (.obj [("status", .obj [("code", .str "VOUCHER_EXPIRED")])]) :=
  (c3_passthrough
    ⟨false, 400, "Bad Request",
      some (.obj [("status", .obj [("code", .str "VOUCHER_EXPIRED")])])⟩
    (.obj [("status", .obj [("code", .str "VOUCHER_EXPIRED")])]) rfl).mpr ⟨rfl, rfl⟩

theorem getValidVoucherCode_empty : getValidVoucherCode "" = "" := rfl

theorem validVoucherCode_if (v : String) (hv : getValidVoucherCode v ≠ "") :
    (if v == "" then "" else getValidVoucherCode v) = getValidVoucherCode v := by
  by_cases h : v = ""
  · subst h; exact absurd getValidVoucherCode_empty hv
  · simp [h]

theorem redeemNetwork_requests (fetchResult : FetchResult) (now : Int) (cache : Cache)
    (cacheKey : String) (req : RequestRecord) :
    (redeemNetwork fetchResult now cache cacheKey req).requests = [req] := by
  cases fetchResult with
  | failure msg => rfl
  | success resp =>
    simp only [redeemNetwork]
    split
    · rfl
    · rfl
    · split <;> rfl

theorem redeemVoucher_miss (fetchResult : FetchResult) (now : Int) (cache : Cache)
    (p v : String)
    (hp : isValidThaiPhoneNumber (jsTrim p) = true)
    (hv : getValidVoucherCode v ≠ "")
    (hm : ∀ e, cacheGet cache (jsTrim p ++ ":" ++ getValidVoucherCode v) = some e →
      e.expiry ≤ now) :
    redeemVoucher fetchResult now cache p v =
      redeemNetwork fetchResult now cache (jsTrim p ++ ":" ++ getValidVoucherCode v)
        ⟨redeemUrl (getValidVoucherCode v), jsTrim p, getValidVoucherCode v⟩ := by
  have hvb : (getValidVoucherCode v == "") = false := by simp [hv]
  simp only [redeemVoucher, validVoucherCode_if v hv, hp, hvb, Bool.not_true,
    Bool.false_eq_true, if_false]
  cases hc : cacheGet cache (jsTrim p ++ ":" ++ getValidVoucherCode v) with
  | none => rfl
  | some e =>
    show (if e.expiry > now then
        ({ outcome := .returned e.data, cache := cache, requests := [] } : RedeemResult)
      else
        redeemNetwork fetchResult now cache (jsTrim p ++ ":" ++ getValidVoucherCode v)
          ⟨redeemUrl (getValidVoucherCode v), jsTrim p, getValidVoucherCode v⟩)
      = redeemNetwork fetchResult now cache (jsTrim p ++ ":" ++ getValidVoucherCode v)
          ⟨redeemUrl (getValidVoucherCode v), jsTrim p, getValidVoucherCode v⟩
    exact if_neg (not_lt.mpr (hm e hc))

/-- Claim C1, counterexample.  With valid inputs, an empty cache and a
`fetch` that rejects (message `"boom"`), `redeemVoucher` does not resolve
with an Error envelope: the rejection is a plain runtime `Error`, so the
`instanceof` chain in the `catch` falls through to
`throw new NetworkError('NETWORK_ERROR', error.message)` and the promise
rejects (outcome `raised`, not `returned`). -/
theorem c1_counterexample :
    redeemVoucher (.failure "boom") 0 [] "0812345678" "VALIDCODE"
      = ⟨.raised "NETWORK_ERROR" "boom", [],
          [⟨redeemUrl "VALIDCODE", "0812345678", "VALIDCODE"⟩]⟩ := rfl

/-- Claim C1 (amended): for every call with a valid phone number, a
non-empty extracted voucher code and no live cache entry, if the outbound
`fetch` raises then `redeemVoucher` raises to its caller a `NetworkError`
whose code is `NETWORK_ERROR` and whose message is the underlying error's
message (the underlying cause itself is not attached); the cache is left
unchanged and exactly one outbound request was issued. -/
theorem c1_network_raise (msg : String) (now : Int) (cache : Cache) (p v : String)
    (hp : isValidThaiPhoneNumber (jsTrim p) = true)
    (hv : getValidVoucherCode v ≠ "")
    (hm : ∀ e, cacheGet cache (jsTrim p ++ ":" ++ getValidVoucherCode v) = some e →
      e.expiry ≤ now) :
    redeemVoucher (.failure msg) now cache p v =
      ⟨.raised "NETWORK_ERROR" msg, cache,
        [⟨redeemUrl (getValidVoucherCode v), jsTrim p, getValidVoucherCode v⟩]⟩ :=
  redeemVoucher_miss (.failure msg) now cache p v hp hv hm

/-- Witness for `c1_network_raise` at concrete valid inputs and an empty
cache. -/
theorem c1_network_raise_witness :
    redeemVoucher (.failure "boom") 7 [] "0812345678" "https://x?v=abc123"
      = ⟨.raised "NETWORK_ERROR" "boom", [],
          [⟨redeemUrl "abc123", "0812345678", "abc123"⟩]⟩ :=
  c1_network_raise "boom" 7 [] "0812345678" "https://x?v=abc123" (by decide) (by decide)
    (fun e h => Option.noConfusion h)

/-- Claim C6: a call whose trimmed phone number fails validation returns
the `INVALID_PHONE_NUMBER` Error envelope immediately, and a call with a
valid phone but empty extracted voucher code returns the
`INVALID_VOUCHER_CODE` envelope immediately; in both cases the result does
not depend on the cache (which is returned unchanged) and no outbound
request is issued. -/
theorem c6_validation_short_circuit (fetchResult : FetchResult) (now : Int) (cache : Cache)
    (p v : String) :
    (isValidThaiPhoneNumber (jsTrim p) = false →
      redeemVoucher fetchResult now cache p v =
        ⟨.returned (errorEnvelope "INVALID_PHONE_NUMBER" "Invalid Thai Phone Number."),
          cache, []⟩)
    ∧ (isValidThaiPhoneNumber (jsTrim p) = true → getValidVoucherCode v = "" →
      redeemVoucher fetchResult now cache p v =
        ⟨.returned (errorEnvelope "INVALID_VOUCHER_CODE" "Invalid Voucher Code."),
          cache, []⟩) := by
  constructor
  · intro hp
    simp [redeemVoucher, hp]
  · intro hp hv
    by_cases h : v = ""
    · subst h
      simp [redeemVoucher, hp]
    · simp [redeemVoucher, hp, h, hv]

/-- Witness for `c6_validation_short_circuit`: `redeem("", "code")` gives
`INVALID_PHONE_NUMBER` and `redeem("0812345678", "")` gives
`INVALID_VOUCHER_CODE`, with no request and the cache untouched. -/
theorem c6_validation_short_circuit_witness :
    redeemVoucher (.failure "boom") 0 [] "" "code"
        = ⟨.returned (errorEnvelope "INVALID_PHONE_NUMBER" "Invalid Thai Phone Number."),
            [], []⟩
      ∧ redeemVoucher (.failure "boom") 0 [] "0812345678" ""
        = ⟨.returned (errorEnvelope "INVALID_VOUCHER_CODE" "Invalid Voucher Code."),
            [], []⟩ :=
  ⟨(c6_validation_short_circuit (.failure "boom") 0 [] "" "code").1 rfl,
    (c6_validation_short_circuit (.failure "boom") 0 [] "0812345678" "").2 rfl rfl⟩

theorem redeemNetwork_cache (fetchResult : FetchResult) (now : Int) (cache : Cache)
    (cacheKey : String) (req : RequestRecord) :
    (redeemNetwork fetchResult now cache cacheKey req).cache = cache
      ∨ ∃ e, (redeemNetwork fetchResult now cache cacheKey req).cache
          = cacheSet cache cacheKey e := by
  cases fetchResult with
  | failure msg => exact Or.inl rfl
  | success resp =>
    simp only [redeemNetwork]
    split
    · exact Or.inl rfl
    · exact Or.inl rfl
    · split
      · exact Or.inl rfl
      · exact Or.inr ⟨_, rfl⟩

/-- Claim C7, counterexample.  A classified `ApiResponse` is obtained
(`parseApiResponse` returns the 200-body `{"foo": 1}` verbatim), yet
nothing is stored in the cache: computing the TTL evaluates
`apiResponse.status.code`, which raises a `TypeError` on this body, so the
call ends in the re-thrown `NetworkError` with the cache unchanged. -/
theorem c7_counterexample :
    redeemVoucher (.success ⟨true, 200, "OK", some (.obj [("foo", .num 1)])⟩) 0 []
        "0812345678" "VALIDCODE"
      = ⟨.raised "NETWORK_ERROR" typeErrorMessage, [],
          [⟨redeemUrl "VALIDCODE", "0812345678", "VALIDCODE"⟩]⟩ := rfl

/-- Claim C7 (amended): for every call reaching the network whose
classified `ApiResponse` admits the `status.code` read (no `TypeError`),
the result — Success or Error alike — is stored under the key
`<cleanedPhone>:<extractedCode>` with expiry `now + 24h` when
`status.code` is `SUCCESS` and `now + 5min` otherwise. -/
theorem c7_cache_store (resp : HttpResponse) (now : Int) (cache : Cache) (p v : String)
    (apiResp : Json) (sc : Option Json)
    (hp : isValidThaiPhoneNumber (jsTrim p) = true)
    (hv : getValidVoucherCode v ≠ "")
    (hm : ∀ e, cacheGet cache (jsTrim p ++ ":" ++ getValidVoucherCode v) = some e →
      e.expiry ≤ now)
    (hparse : parseApiResponse resp = .ok apiResp)
    (hsc : statusCodeOf apiResp = .ok sc) :
    redeemVoucher (.success resp) now cache p v =
      ⟨.returned apiResp,
        cacheSet cache (jsTrim p ++ ":" ++ getValidVoucherCode v)
          ⟨apiResp, now + (if isSuccessCode sc then SUCCESS_CACHE_TTL else ERROR_CACHE_TTL)⟩,
        [⟨redeemUrl (getValidVoucherCode v), jsTrim p, getValidVoucherCode v⟩]⟩ := by
  rw [redeemVoucher_miss (.success resp) now cache p v hp hv hm]
  simp only [redeemNetwork, hparse, hsc]

/-- Witness for `c7_cache_store`: a concrete `SUCCESS` body is cached for
24 hours under `"0812345678:CODE1"`. -/
theorem c7_cache_store_witness :
    redeemVoucher
        (.success ⟨true, 200, "OK",
          some (.obj [("status",
            .obj [("code", .str "SUCCESS"), ("message", .str "ok"), ("data", .obj [])])])⟩)
        5 [] "0812345678" "CODE1"
      = ⟨.returned (.obj [("status",
            .obj [("code", .str "SUCCESS"), ("message", .str "ok"), ("data", .obj [])])]),
          [("0812345678:CODE1",
            ⟨.obj [("status",
              .obj [("code", .str "SUCCESS"), ("message", .str "ok"), ("data", .obj [])])],
              5 + SUCCESS_CACHE_TTL⟩)],
          [⟨redeemUrl "CODE1", "0812345678", "CODE1"⟩]⟩ :=
  c7_cache_store
    ⟨true, 200, "OK",
      some (.obj [("status",
        .obj [("code", .str "SUCCESS"), ("message", .str "ok"), ("data", .obj [])])])⟩
    5 [] "0812345678" "CODE1"
    (.obj [("status",
      .obj [("code", .str "SUCCESS"), ("message", .str "ok"), ("data", .obj [])])])
    (some (.str "SUCCESS"))
    (by decide) (by decide) (fun e h => Option.noConfusion h) rfl rfl

/-- Claim C8: with valid arguments and a cache entry already stored under
the call's key, a call made strictly before the entry's expiry returns the
stored `ApiResponse` verbatim, leaves the cache unchanged and issues no
network request; a call made at or after the expiry treats the entry as
absent and issues a fresh network request. -/
theorem c8_cache_reuse (fetchResult : FetchResult) (now : Int) (cache : Cache)
    (p v : String) (e : CacheEntry)
    (hp : isValidThaiPhoneNumber (jsTrim p) = true)
    (hv : getValidVoucherCode v ≠ "")
    (hentry : cacheGet cache (jsTrim p ++ ":" ++ getValidVoucherCode v) = some e) :
    (now < e.expiry →
      redeemVoucher fetchResult now cache p v = ⟨.returned e.data, cache, []⟩)
    ∧ (e.expiry ≤ now →
      (redeemVoucher fetchResult now cache p v).requests =
        [⟨redeemUrl (getValidVoucherCode v), jsTrim p, getValidVoucherCode v⟩]) := by
  have hvb : (getValidVoucherCode v == "") = false := by simp [hv]
  constructor
  · intro hlt
    simp only [redeemVoucher, validVoucherCode_if v hv, hp, hvb, Bool.not_true,
      Bool.false_eq_true, if_false, hentry]
    show (if e.expiry > now then
        ({ outcome := .returned e.data, cache := cache, requests := [] } : RedeemResult)
      else redeemNetwork fetchResult now cache (jsTrim p ++ ":" ++ getValidVoucherCode v)
        ⟨redeemUrl (getValidVoucherCode v), jsTrim p, getValidVoucherCode v⟩)
      = { outcome := .returned e.data, cache := cache, requests := [] }
    exact if_pos hlt
  · intro hle
    have hmiss : ∀ e2, cacheGet cache (jsTrim p ++ ":" ++ getValidVoucherCode v) = some e2 →
        e2.expiry ≤ now := by
      intro e2 h2
      rw [hentry] at h2
      injection h2 with h2
      exact h2 ▸ hle
    rw [redeemVoucher_miss fetchResult now cache p v hp hv hmiss]
    exact redeemNetwork_requests fetchResult now cache _ _

/-- Witness for `c8_cache_reuse`: a live hit at `now = 50 < 100` returns
the stored value with no request; at `now = 100` the same entry is expired
and a request is issued. -/
theorem c8_cache_reuse_witness :
    redeemVoucher (.failure "x") 50 [("0812345678:CODE1", ⟨.str "cached", 100⟩)]
        "0812345678" "CODE1"
      = ⟨.returned (.str "cached"), [("0812345678:CODE1", ⟨.str "cached", 100⟩)], []⟩
    ∧ (redeemVoucher (.failure "x") 100 [("0812345678:CODE1", ⟨.str "cached", 100⟩)]
        "0812345678" "CODE1").requests
      = [⟨redeemUrl "CODE1", "0812345678", "CODE1"⟩] :=
  ⟨(c8_cache_reuse (.failure "x") 50 [("0812345678:CODE1", ⟨.str "cached", 100⟩)]
      "0812345678" "CODE1" ⟨.str "cached", 100⟩ (by decide) (by decide) rfl).1 (by decide),
    (c8_cache_reuse (.failure "x") 100 [("0812345678:CODE1", ⟨.str "cached", 100⟩)]
      "0812345678" "CODE1" ⟨.str "cached", 100⟩ (by decide) (by decide) rfl).2 (by decide)⟩

/-- Claim C10: a call that reaches the network sends the merely trimmed
original phone string as the request's `mobile` field (never the
digit-stripped or `0`-prefixed form the validator tested), and any cache
write of the call is under the key `<trimmedPhone>:<extractedCode>`. -/
theorem c10_raw_phone_forwarded (fetchResult : FetchResult) (now : Int) (cache : Cache)
    (p v : String)
    (hp : isValidThaiPhoneNumber (jsTrim p) = true)
    (hv : getValidVoucherCode v ≠ "")
    (hm : ∀ e, cacheGet cache (jsTrim p ++ ":" ++ getValidVoucherCode v) = some e →
      e.expiry ≤ now) :
    (redeemVoucher fetchResult now cache p v).requests
        = [⟨redeemUrl (getValidVoucherCode v), jsTrim p, getValidVoucherCode v⟩]
      ∧ ((redeemVoucher fetchResult now cache p v).cache = cache
        ∨ ∃ e, (redeemVoucher fetchResult now cache p v).cache
            = cacheSet cache (jsTrim p ++ ":" ++ getValidVoucherCode v) e) := by
  rw [redeemVoucher_miss fetchResult now cache p v hp hv hm]
  exact ⟨redeemNetwork_requests fetchResult now cache _ _,
    redeemNetwork_cache fetchResult now cache _ _⟩

/-- Witness for `c10_raw_phone_forwarded`: the phone `"08-1234-5678"`
passes validation only via digit-stripping, yet the request carries the
separator-laden original (and the voucher code is the segment extracted
after `"?v="`). -/
theorem c10_raw_phone_forwarded_witness :
    (redeemVoucher (.failure "x") 0 [] "08-1234-5678" "https://x?v=abc123").requests
        = [⟨redeemUrl "abc123", "08-1234-5678", "abc123"⟩]
      ∧ ((redeemVoucher (.failure "x") 0 [] "08-1234-5678" "https://x?v=abc123").cache = []
        ∨ ∃ e, (redeemVoucher (.failure "x") 0 [] "08-1234-5678" "https://x?v=abc123").cache
            = cacheSet [] (jsTrim "08-1234-5678" ++ ":" ++ getValidVoucherCode "https://x?v=abc123") e) :=
  c10_raw_phone_forwarded (.failure "x") 0 [] "08-1234-5678" "https://x?v=abc123"
    (by decide) (by decide) (fun e h => Option.noConfusion h)

/-- Claim C9: for every well-formed `{mobile, voucher_hash}` body with
string fields, the schema-compiled fast encoding and the generic
`JSON.stringify` fallback produce byte-identical JSON, so the gating check
in `makeApiRequest` never affects the outbound body. -/
theorem c9_encoder_paths_agree :
    ∀ mobile voucherHash : String,
      makeApiRequestBody mobile voucherHash = fastEncodeBody mobile voucherHash
        ∧ fastEncodeBody mobile voucherHash
          = jsonStringifyFlat [("mobile", mobile), ("voucher_hash", voucherHash)] := by
  intro m v
  refine ⟨rfl, ?_⟩
  have hk1 : encodeJsonChars "mobile" = '"' :: ("mobile".toList ++ ['"']) := rfl
  have hk2 : encodeJsonChars "voucher_hash" = '"' :: ("voucher_hash".toList ++ ['"']) := rfl
  simp [fastEncodeBody, jsonStringifyFlat, jsonStringifyFlat.joinComma, hk1, hk2]
